import Mathlib

/-!
Verification of the multi-timeframe trading-signal pipeline.

This file shallowly embeds the deterministic core of the repository:

* `src/lib/openai.ts` — the `OpenAIAnalyzer` class: its `parseAnalysis` and
  `parseSignal` response parsers and the data flow of `generateSignal`
  (the network call is abstracted as the response-content parameter).
* `src/components/ScreenCapture.tsx` — `extractPrice` and
  `extractStructuresFromAnalysis`, the keyword-rule structure extractor.
* `src/components/AlertSystem.tsx` — the realtime-subscription handler and
  `showAlert`, modelled as an effect-trace function.
* The Timeframe Analysis Aggregator of spec §4.2, which has no implementation
  under the source tree, is modelled from the spec where marked.

JavaScript numbers are modelled as rationals (`ℚ`); all code literals used by
the core (0.7, 0.75, 0.8, 0.85) are exact decimals, so nothing is lost.
Strings are handled as `List Char` after the source's `toLowerCase`/`split`
preprocessing, which is embedded explicitly.
-/

/-- `MarketStructure.type` values, from the union type in `openai.ts` and the
string constants pushed in `ScreenCapture.tsx`. -/
inductive StructType
  | choch
  | bos
  | order_block
  | liquidity
  | poi
  | fib_50
deriving DecidableEq, Repr

/-- `'bullish' | 'bearish' | 'neutral'` in the source. -/
inductive Direction
  | bullish
  | bearish
  | neutral
deriving DecidableEq, Repr

/-- The `coordinates` rectangle of a `MarketStructure`. -/
structure Coordinates where
  x : ℚ
  y : ℚ
  width : ℚ
  height : ℚ
deriving DecidableEq, Repr

/-- The `MarketStructure` interface of `openai.ts` (also the object shape
pushed by `extractStructuresFromAnalysis` in `ScreenCapture.tsx`). -/
structure MarketStructure where
  type : StructType
  direction : Direction
  priceLevel : ℚ
  confidence : ℚ
  coordinates : Coordinates
deriving DecidableEq, Repr

/-- `'4h' | '15m' | '3m' | '1m'` in the source. -/
inductive Timeframe
  | tf4h
  | tf15m
  | tf3m
  | tf1m
deriving DecidableEq, Repr

/-- The `ChartAnalysis` interface of `openai.ts`. -/
structure ChartAnalysis where
  timeframe : Timeframe
  structures : List MarketStructure
  trendDirection : Direction
  keyLevels : List ℚ
  analysis : String
deriving DecidableEq, Repr

/-- `'buy' | 'sell'`; the `null` case of `signalType` is `Option` below. -/
inductive SignalType
  | buy
  | sell
deriving DecidableEq, Repr

/-- The `reasoning` record of the `TradingSignal` interface. -/
structure Reasoning where
  tf4h : String
  tf15m : String
  tf3m : String
  tf1m : String
deriving DecidableEq, Repr

/-- The `TradingSignal` interface of `openai.ts`; `T | null` fields become
`Option`. -/
structure TradingSignal where
  signalType : Option SignalType
  entryPrice : Option ℚ
  stopLoss : Option ℚ
  takeProfit : Option ℚ
  riskRewardRatio : Option ℚ
  confidence : ℚ
  reasoning : Reasoning
deriving DecidableEq, Repr

/-- `OpenAIAnalyzer.parseAnalysis` (openai.ts lines 216-224): returns a
`ChartAnalysis` with empty `structures`, `trendDirection: 'neutral'`, empty
`keyLevels`, and the raw model content in `analysis`. -/
def parseAnalysis (content : String) (timeframe : Timeframe) : ChartAnalysis :=
  { timeframe := timeframe
    structures := []
    trendDirection := .neutral
    keyLevels := []
    analysis := content }

/-- `OpenAIAnalyzer.parseSignal` (openai.ts lines 226-241): ignores the model
content and returns the all-null signal with `confidence: 0`. -/
def parseSignal (content : String) : TradingSignal :=
  { signalType := none
    entryPrice := none
    stopLoss := none
    takeProfit := none
    riskRewardRatio := none
    confidence := 0
    reasoning := { tf4h := "", tf15m := "", tf3m := "", tf1m := "" } }

/-- The deterministic data flow of `OpenAIAnalyzer.generateSignal`
(openai.ts lines 96-155): it posts the four analyses and the training rules
to the model and returns `parseSignal` of the model's reply. The network
round-trip is abstracted as the `content` parameter — whatever text the model
answers, the returned signal is `parseSignal content`, which uses none of the
four analyses. -/
def generateSignalPure (tf4h tf15m tf3m tf1m : ChartAnalysis)
    (trainingRules : List String) (content : String) : TradingSignal :=
  parseSignal content

/-- A persisted `trading_signals` row as seen by `AlertSystem.tsx` (the
realtime INSERT payload carries these fields). -/
structure SignalRow where
  id : String
  signal_type : SignalType
  entry_price : ℚ
  confidence_score : ℚ
  alert_sent : Bool
deriving DecidableEq, Repr

/-- The component-local toggles read by `showAlert`, plus the browser
notification-permission state. -/
structure AlertSettings where
  soundEnabled : Bool
  notificationsEnabled : Bool
  notifPermissionGranted : Bool
deriving DecidableEq, Repr

/-- One observable side effect of `showAlert`. -/
inductive AlertEffect
  | toastAdded (id : String)
  | soundPlayed
  | systemNotification (id : String)
  | dbUpdateAlertsent (id : String)
deriving DecidableEq, Repr

/-- `showAlert` in `AlertSystem.tsx` (lines 75-110), as the trace of effects
one call performs, in source order: add toast if `notificationsEnabled`,
play sound if `soundEnabled`, raise a system notification if permission is
granted, then fire-and-forget an update setting `alert_sent = true` on the
row. The function returns no value in the source; correspondingly the model
returns only the effect trace. -/
def showAlert (cfg : AlertSettings) (signal : SignalRow) : List AlertEffect :=
  (if cfg.notificationsEnabled then [.toastAdded signal.id] else []) ++
  (if cfg.soundEnabled then [.soundPlayed] else []) ++
  (if cfg.notifPermissionGranted then [.systemNotification signal.id] else []) ++
  [.dbUpdateAlertsent signal.id]

/-- The realtime-subscription INSERT handler in `AlertSystem.tsx`
(lines 33-38): it reads `payload.new` and calls `showAlert` when the
payload's own `alert_sent` field is false. -/
def subscriptionHandler (cfg : AlertSettings) (payload : SignalRow) :
    List AlertEffect :=
  if payload.alert_sent then [] else showAlert cfg payload

/-- Substring test, the model of JavaScript `String.prototype.includes`:
`containsSub needle hay` is true iff `needle` occurs contiguously in `hay`. -/
def containsSub (needle : List Char) : List Char → Bool
  | [] => needle.isPrefixOf []
  | c :: rest => needle.isPrefixOf (c :: rest) || containsSub needle rest

/-- The model of JavaScript `String.prototype.split('\n')`: split into lines
at every newline character (`"".split('\n')` is `[""]`, so the result is
never empty). -/
def splitLines : List Char → List (List Char)
  | [] => [[]]
  | c :: rest =>
    match splitLines rest with
    | [] => [[]]
    | l :: ls => if c = '\n' then [] :: l :: ls else (c :: l) :: ls

/-- The token consumed by the greedy regex body `[0-9]+(?:[,.]?[0-9]+)*` of
`extractPrice`, starting at a digit: a maximal digit run, then repeatedly a
`,` or `.` that is immediately followed by a digit together with the next
maximal digit run. -/
def numToken : List Char → List Char
  | [] => []
  | c :: rest =>
    if c.isDigit then c :: numToken rest
    else if c = ',' ∨ c = '.' then
      match rest with
      | [] => []
      | d :: _ => if d.isDigit then c :: numToken rest else []
    else []

/-- The leftmost match of the `extractPrice` regex `\$?([0-9]+(?:[,.]?[0-9]+)*)`
(`matches[0]` in the source), with the optional leading `$` already dropped —
the source strips it with `.replace(/[$,]/g, '')` before parsing anyway.
A match starts at the first position holding a digit, or holding a `$`
immediately followed by a digit. -/
def firstMatch : List Char → Option (List Char)
  | [] => none
  | c :: rest =>
    if c.isDigit then some (numToken (c :: rest))
    else if c = '$' then
      match rest with
      | [] => none
      | d :: _ => if d.isDigit then some (numToken rest) else firstMatch rest
    else firstMatch rest

/-- Value of a digit string read as a natural number. -/
def digitsToNat (ds : List Char) : ℕ :=
  ds.foldl (fun n c => 10 * n + (c.toNat - '0'.toNat)) 0

/-- JavaScript `parseFloat` on a string that starts with a digit and contains
only digits and dots (the shape `extractPrice` feeds it after stripping `$`
and `,`): the leading integer digits, then, after a single dot, the following
digit run as the fraction; parsing stops at the first character that fits
neither (e.g. `parseFloat("1.2.3") = 1.2`). -/
def parseFloatQ (s : List Char) : ℚ :=
  let intPart := s.takeWhile Char.isDigit
  let rest := s.dropWhile Char.isDigit
  match rest with
  | '.' :: frac =>
    let fracDigits := frac.takeWhile Char.isDigit
    (digitsToNat intPart : ℚ) + (digitsToNat fracDigits : ℚ) / 10 ^ fracDigits.length
  | _ => (digitsToNat intPart : ℚ)

/-- `extractPrice` in `ScreenCapture.tsx` (lines 82-89): take the first regex
match, strip `$` and `,`, `parseFloat` it; `null` when the line has no match.
The stripped match always starts with a digit, so the source's `isNaN` branch
is unreachable. -/
def extractPrice (line : List Char) : Option ℚ :=
  match firstMatch line with
  | none => none
  | some tok => some (parseFloatQ (tok.filter (fun c => c ≠ ',')))

/-- The `const price = extractPrice(line); if (price) { structures.push(...) }`
pattern shared by every rule block of `extractStructuresFromAnalysis`:
JavaScript truthiness drops both `null` and `0`. -/
def guardPrice (line : List Char) (mk : ℚ → MarketStructure) :
    List MarketStructure :=
  match extractPrice line with
  | none => []
  | some p => if p = 0 then [] else [mk p]

/-- Per-category keyword test of the six rule blocks of
`extractStructuresFromAnalysis`, read off the source's `if` conditions. -/
def ruleMatches (k : StructType) (line : List Char) : Bool :=
  match k with
  | .choch => containsSub "choch".toList line || containsSub "change of character".toList line
  | .bos => containsSub "bos".toList line || containsSub "break of structure".toList line
  | .order_block => containsSub "order block".toList line
  | .liquidity => containsSub "liquidity".toList line || containsSub "pool".toList line
  | .poi => containsSub "poi".toList line || containsSub "point of interest".toList line
  | .fib_50 => containsSub "fib".toList line &&
      (containsSub "50".toList line || containsSub "0.5".toList line)

/-- A line keyword-matches at least one of the six rule categories. -/
def lineMatchesAnyRule (line : List Char) : Bool :=
  ruleMatches .choch line || ruleMatches .bos line || ruleMatches .order_block line ||
  ruleMatches .liquidity line || ruleMatches .poi line || ruleMatches .fib_50 line

/-- The per-line body of `extractStructuresFromAnalysis` in
`ScreenCapture.tsx` (lines 95-168): the six keyword-rule blocks in source
order, their `if` conditions factored through `ruleMatches`, each pushing at
most one structure; `line` is already lowercased by the caller. -/
def structuresFromLine (line : List Char) : List MarketStructure :=
  (if ruleMatches .choch line then
    guardPrice line (fun p =>
      { type := .choch
        direction :=
          if containsSub "bullish".toList line then .bullish
          else if containsSub "bearish".toList line then .bearish
          else .neutral
        priceLevel := p
        confidence := 0.8
        coordinates := ⟨0, 0, 0, 0⟩ })
  else []) ++
  (if ruleMatches .bos line then
    guardPrice line (fun p =>
      { type := .bos
        direction :=
          if containsSub "bullish".toList line then .bullish
          else if containsSub "bearish".toList line then .bearish
          else .neutral
        priceLevel := p
        confidence := 0.85
        coordinates := ⟨0, 0, 0, 0⟩ })
  else []) ++
  (if ruleMatches .order_block line then
    guardPrice line (fun p =>
      { type := .order_block
        direction :=
          if containsSub "bullish".toList line || containsSub "demand".toList line then .bullish
          else if containsSub "bearish".toList line || containsSub "supply".toList line then .bearish
          else .neutral
        priceLevel := p
        confidence := 0.75
        coordinates := ⟨0, 0, 0, 0⟩ })
  else []) ++
  (if ruleMatches .liquidity line then
    guardPrice line (fun p =>
      { type := .liquidity
        direction :=
          if containsSub "above".toList line then .bullish
          else if containsSub "below".toList line then .bearish
          else .neutral
        priceLevel := p
        confidence := 0.7
        coordinates := ⟨0, 0, 0, 0⟩ })
  else []) ++
  (if ruleMatches .poi line then
    guardPrice line (fun p =>
      { type := .poi
        direction := .neutral
        priceLevel := p
        confidence := 0.8
        coordinates := ⟨0, 0, 0, 0⟩ })
  else []) ++
  (if ruleMatches .fib_50 line then
    guardPrice line (fun p =>
      { type := .fib_50
        direction := .neutral
        priceLevel := p
        confidence := 0.75
        coordinates := ⟨0, 0, 0, 0⟩ })
  else [])

/-- `extractStructuresFromAnalysis` in `ScreenCapture.tsx` (lines 91-171):
lowercase the text, split on newlines, run the six rule blocks on each line,
collect all pushed structures in order. The `timeframe` argument is unused in
the source body (it is only attached at database-insert time). -/
def extractStructuresFromAnalysis (analysisText : String)
    (timeframe : Timeframe) : List MarketStructure :=
  ((splitLines (analysisText.toList.map Char.toLower)).map structuresFromLine).join


/-- The single uniform direction rule asserted by the spec sentence behind C4
("bullish"/"demand"/"above" → bullish; "bearish"/"supply"/"below" → bearish;
otherwise neutral), stated over one lowercased line. This follows the spec's
words, for comparison with the source embedding. -/
def claimedUniformDirection (line : List Char) : Direction :=
  if containsSub "bullish".toList line || containsSub "demand".toList line ||
      containsSub "above".toList line then .bullish
  else if containsSub "bearish".toList line || containsSub "supply".toList line ||
      containsSub "below".toList line then .bearish
  else .neutral

/-- The direction rule the source actually applies, which differs per rule
category: `choch`/`bos` test "bullish"/"bearish"; `order_block` tests
"bullish" or "demand" versus "bearish" or "supply"; `liquidity` tests
"above" versus "below"; `poi` and `fib_50` are always neutral. In every case
the bullish-side test takes precedence. -/
def amendedDirection (k : StructType) (line : List Char) : Direction :=
  match k with
  | .choch | .bos =>
    if containsSub "bullish".toList line then .bullish
    else if containsSub "bearish".toList line then .bearish
    else .neutral
  | .order_block =>
    if containsSub "bullish".toList line || containsSub "demand".toList line then .bullish
    else if containsSub "bearish".toList line || containsSub "supply".toList line then .bearish
    else .neutral
  | .liquidity =>
    if containsSub "above".toList line then .bullish
    else if containsSub "below".toList line then .bearish
    else .neutral
  | .poi | .fib_50 => .neutral

/-- Modelled from the spec: the Timeframe Analysis Aggregator of §4.2 is not
implemented under the source tree (only its consumer, `generateSignal`, which
requires all four analyses as separate arguments, is); its accumulation state
holds at most one `ChartAnalysis` per required timeframe. -/
structure AggregationState where
  tf4h : Option ChartAnalysis
  tf15m : Option ChartAnalysis
  tf3m : Option ChartAnalysis
  tf1m : Option ChartAnalysis
deriving DecidableEq, Repr

/-- Modelled from the spec: the `IncompleteBundle` failure condition of
`toBundle()` (§4.2, §7). -/
inductive BundleError
  | IncompleteBundle
deriving DecidableEq, Repr

/-- Modelled from the spec: a complete bundle, exactly one analysis per
required timeframe (§3 TimeframeBundle). -/
structure TimeframeBundle where
  tf4h : ChartAnalysis
  tf15m : ChartAnalysis
  tf3m : ChartAnalysis
  tf1m : ChartAnalysis
deriving DecidableEq, Repr

/-- Modelled from the spec: read one timeframe slot of the aggregation
state. -/
def getTimeframe (st : AggregationState) : Timeframe → Option ChartAnalysis
  | .tf4h => st.tf4h
  | .tf15m => st.tf15m
  | .tf3m => st.tf3m
  | .tf1m => st.tf1m

/-- Modelled from the spec: supply (or overwrite, which §4.2 allows before
completion) one timeframe's analysis. -/
def setTimeframe (st : AggregationState) : Timeframe → ChartAnalysis → AggregationState
  | .tf4h, a => { st with tf4h := some a }
  | .tf15m, a => { st with tf15m := some a }
  | .tf3m, a => { st with tf3m := some a }
  | .tf1m, a => { st with tf1m := some a }

/-- Modelled from the spec: `isComplete()` — all four timeframes present
(§4.2). -/
def isComplete (st : AggregationState) : Bool :=
  st.tf4h.isSome && st.tf15m.isSome && st.tf3m.isSome && st.tf1m.isSome

/-- Modelled from the spec: `toBundle()` — the aligned bundle when all four
timeframes are present, the `IncompleteBundle` condition otherwise (§4.2). -/
def toBundle (st : AggregationState) : Except BundleError TimeframeBundle :=
  match st.tf4h, st.tf15m, st.tf3m, st.tf1m with
  | some a4, some a15, some a3, some a1 => .ok ⟨a4, a15, a3, a1⟩
  | _, _, _, _ => .error .IncompleteBundle

/-- Modelled from the spec: the control flow that feeds the Decision Engine
(§2): the engine runs only on a successfully built bundle; an incomplete
aggregation produces no signal and never invokes the engine. -/
def decideFromState (st : AggregationState)
    (engine : TimeframeBundle → Option TradingSignal) : Option TradingSignal :=
  match toBundle st with
  | .ok b => engine b
  | .error _ => none

/-- The 4h analysis of C1's confluence bundle: trend direction bullish. -/
def c1Analysis4h : ChartAnalysis :=
  { timeframe := .tf4h
    structures := []
    trendDirection := .bullish
    keyLevels := []
    analysis := "4h uptrend, bullish market structure" }

/-- The 15m analysis of C1's bundle: one bullish structure, confidence
0.85. -/
def c1Analysis15m : ChartAnalysis :=
  { timeframe := .tf15m
    structures := [{ type := .bos, direction := .bullish, priceLevel := 101,
                     confidence := 0.85, coordinates := ⟨0, 0, 0, 0⟩ }]
    trendDirection := .bullish
    keyLevels := [101]
    analysis := "15m bullish BOS at 101" }

/-- The 3m analysis of C1's bundle: a bullish order_block at price 100,
confidence 0.75. -/
def c1Analysis3m : ChartAnalysis :=
  { timeframe := .tf3m
    structures := [{ type := .order_block, direction := .bullish, priceLevel := 100,
                     confidence := 0.75, coordinates := ⟨0, 0, 0, 0⟩ }]
    trendDirection := .bullish
    keyLevels := [100]
    analysis := "3m bullish order block at 100" }

/-- The 1m analysis of C1's bundle: a bullish structure at price 102,
confidence 0.8. -/
def c1Analysis1m : ChartAnalysis :=
  { timeframe := .tf1m
    structures := [{ type := .bos, direction := .bullish, priceLevel := 102,
                     confidence := 0.8, coordinates := ⟨0, 0, 0, 0⟩ }]
    trendDirection := .bullish
    keyLevels := [102]
    analysis := "1m bullish trigger at 102" }

/-- C3's failing input: the INSERT payload of a fresh signal, whose
`alert_sent` field is false. At-least-once delivery hands this same payload
to the subscription handler more than once. -/
def c3Payload : SignalRow :=
  { id := "sig-1", signal_type := .buy, entry_price := 102,
    confidence_score := 0.8, alert_sent := false }

/-- C3's settings: sound, toasts and system notifications all enabled. -/
def c3Settings : AlertSettings :=
  { soundEnabled := true, notificationsEnabled := true,
    notifPermissionGranted := true }

/-- C5: for every model response text and every timeframe label,
`parseAnalysis` returns a `ChartAnalysis` with `trendDirection` neutral,
empty `structures`, empty `keyLevels`, and the input text unchanged in
`analysis` — the structured fields never depend on the model's output. -/
theorem C5_parseAnalysis_fixed_fields (content : String) (tf : Timeframe) :
    (parseAnalysis content tf).trendDirection = Direction.neutral ∧
    (parseAnalysis content tf).structures = [] ∧
    (parseAnalysis content tf).keyLevels = [] ∧
    (parseAnalysis content tf).analysis = content :=
  ⟨rfl, rfl, rfl, rfl⟩

/-- C2 (code evaluation): whatever the model's reply, `parseSignal` — the
only producer of `TradingSignal` values in the source — returns `signalType`,
`entryPrice`, `stopLoss`, `takeProfit` and `riskRewardRatio` all null. The
engine therefore never emits a buy or sell signal carrying prices, so the
claimed `take_profit = entry_price + ratio * (entry_price - stop_loss)`
invariant is never established by the code. -/
theorem C2_parseSignal_never_prices (content : String) :
    (parseSignal content).signalType = none ∧
    (parseSignal content).entryPrice = none ∧
    (parseSignal content).stopLoss = none ∧
    (parseSignal content).takeProfit = none ∧
    (parseSignal content).riskRewardRatio = none :=
  ⟨rfl, rfl, rfl, rfl, rfl⟩

/-- C1 (code evaluation at the claim's failing input): on the exact
confluence bundle of the claim — 4h trend bullish, a bullish 15m structure,
a bullish 3m order_block at 100, a bullish 1m structure at 102, all stage
confidences at least 0.75 — `generateSignal` still returns a signal whose
`signalType` is null, whose `entryPrice` is null, and whose confidence is 0,
for every possible model reply: no buy signal with entry 102 is ever
emitted. -/
theorem C1_bundle_yields_no_signal (content : String) :
    (generateSignalPure c1Analysis4h c1Analysis15m c1Analysis3m c1Analysis1m
        [] content).signalType = none ∧
    (generateSignalPure c1Analysis4h c1Analysis15m c1Analysis3m c1Analysis1m
        [] content).entryPrice = none ∧
    (generateSignalPure c1Analysis4h c1Analysis15m c1Analysis3m c1Analysis1m
        [] content).confidence = 0 :=
  ⟨rfl, rfl, rfl⟩

/-- C3 (code evaluation at the failing input): delivering the same INSERT
payload (a fresh signal, `alert_sent = false`) to the subscription handler
twice — which at-least-once delivery permits — produces every notification
side effect twice and issues the blind `alert_sent := true` update twice.
The source has no check-and-set: `showAlert` returns no success boolean, and
its effects are not gated on having performed the false-to-true
transition. -/
theorem C3_double_delivery_double_effects :
    ((subscriptionHandler c3Settings c3Payload ++
        subscriptionHandler c3Settings c3Payload).count
      AlertEffect.soundPlayed = 2) ∧
    ((subscriptionHandler c3Settings c3Payload ++
        subscriptionHandler c3Settings c3Payload).count
      (AlertEffect.toastAdded "sig-1") = 2) ∧
    ((subscriptionHandler c3Settings c3Payload ++
        subscriptionHandler c3Settings c3Payload).count
      (AlertEffect.dbUpdateAlertsent "sig-1") = 2) := by
  decide

/-- C7: an aggregation state missing one of the four required timeframes
fails `toBundle()` with `IncompleteBundle`, the Decision Engine is never
invoked on it (the pipeline yields no signal whatever the engine is), and
after the missing timeframe's analysis is supplied, retrying `toBundle()`
succeeds. -/
theorem C7_incomplete_bundle_recovery (st : AggregationState) (tf : Timeframe)
    (hmiss : getTimeframe st tf = none)
    (hrest : ∀ tf2, tf2 ≠ tf → (getTimeframe st tf2).isSome = true) :
    toBundle st = .error .IncompleteBundle ∧
    (∀ engine : TimeframeBundle → Option TradingSignal,
      decideFromState st engine = none) ∧
    ∀ a : ChartAnalysis, ∃ b : TimeframeBundle,
      toBundle (setTimeframe st tf a) = .ok b := by
  rcases st with ⟨o4, o15, o3, o1⟩
  rcases tf
  case tf4h =>
    have h15 := hrest .tf15m (by decide)
    have h3 := hrest .tf3m (by decide)
    have h1 := hrest .tf1m (by decide)
    simp only [getTimeframe] at hmiss h15 h3 h1
    subst hmiss
    rcases o15 with _ | a15
    · simp at h15
    rcases o3 with _ | a3
    · simp at h3
    rcases o1 with _ | a1
    · simp at h1
    exact ⟨rfl, fun engine => rfl, fun a => ⟨_, rfl⟩⟩
  case tf15m =>
    have h4 := hrest .tf4h (by decide)
    have h3 := hrest .tf3m (by decide)
    have h1 := hrest .tf1m (by decide)
    simp only [getTimeframe] at hmiss h4 h3 h1
    subst hmiss
    rcases o4 with _ | a4
    · simp at h4
    rcases o3 with _ | a3
    · simp at h3
    rcases o1 with _ | a1
    · simp at h1
    exact ⟨rfl, fun engine => rfl, fun a => ⟨_, rfl⟩⟩
  case tf3m =>
    have h4 := hrest .tf4h (by decide)
    have h15 := hrest .tf15m (by decide)
    have h1 := hrest .tf1m (by decide)
    simp only [getTimeframe] at hmiss h4 h15 h1
    subst hmiss
    rcases o4 with _ | a4
    · simp at h4
    rcases o15 with _ | a15
    · simp at h15
    rcases o1 with _ | a1
    · simp at h1
    exact ⟨rfl, fun engine => rfl, fun a => ⟨_, rfl⟩⟩
  case tf1m =>
    have h4 := hrest .tf4h (by decide)
    have h15 := hrest .tf15m (by decide)
    have h3 := hrest .tf3m (by decide)
    simp only [getTimeframe] at hmiss h4 h15 h3
    subst hmiss
    rcases o4 with _ | a4
    · simp at h4
    rcases o15 with _ | a15
    · simp at h15
    rcases o3 with _ | a3
    · simp at h3
    exact ⟨rfl, fun engine => rfl, fun a => ⟨_, rfl⟩⟩

/-- C7 witness: the concrete state missing only the 4h analysis fails
`toBundle()` with `IncompleteBundle`; after supplying the 4h analysis,
`toBundle()` succeeds. -/
theorem C7_incomplete_bundle_recovery_witness :
    toBundle ⟨none, some c1Analysis15m, some c1Analysis3m, some c1Analysis1m⟩ =
      .error .IncompleteBundle ∧
    ∃ b : TimeframeBundle,
      toBundle (setTimeframe
        ⟨none, some c1Analysis15m, some c1Analysis3m, some c1Analysis1m⟩
        .tf4h c1Analysis4h) = .ok b := by
  have h := C7_incomplete_bundle_recovery
    ⟨none, some c1Analysis15m, some c1Analysis3m, some c1Analysis1m⟩ .tf4h
    rfl
    (by
      intro tf2 h2
      rcases tf2
      · exact absurd rfl h2
      · rfl
      · rfl
      · rfl)
  exact ⟨h.1, h.2.2 c1Analysis4h⟩

/-- Helper: under a known nonzero extracted price, the price guard emits the
rule's single structure. -/
theorem guardPrice_some (line : List Char) (mk : ℚ → MarketStructure) (p : ℚ)
    (hp : extractPrice line = some p) (h0 : p ≠ 0) :
    guardPrice line mk = [mk p] := by
  unfold guardPrice
  rw [hp]
  simp [h0]

/-- Helper: a member of a price-guarded segment is the rule's structure at
the extracted price. -/
theorem mem_guardPrice (line : List Char) (mk : ℚ → MarketStructure)
    (s : MarketStructure) (hs : s ∈ guardPrice line mk) : ∃ p, s = mk p := by
  unfold guardPrice at hs
  rcases hE : extractPrice line with _ | p
  · rw [hE] at hs
    simp at hs
  · rw [hE] at hs
    by_cases h0 : p = 0
    · simp [h0] at hs
    · simp [h0] at hs
      exact ⟨p, hs⟩

/-- Helper: membership in a guarded `if`-segment whose else-branch is empty
implies membership in the then-branch. -/
theorem mem_of_mem_ite {c : Prop} [Decidable c] {l : List MarketStructure}
    {s : MarketStructure} (hs : s ∈ if c then l else []) : s ∈ l := by
  split at hs
  · exact hs
  · simp at hs

/-- C10: a keyword-matching line whose first numeric token parses to 0 emits
no structure at all — the source's truthiness test `if (price)` treats an
extracted price of 0 exactly like a missing price. -/
theorem C10_zero_price_emits_nothing (line : List Char)
    (hmatch : lineMatchesAnyRule line = true)
    (hp : extractPrice line = some 0) :
    structuresFromLine line = [] := by
  unfold structuresFromLine guardPrice
  rw [hp]
  simp

/-- C10 witness: the line "bos at 0" keyword-matches the bos rule, its first
numeric token parses to 0, and extraction emits nothing. -/
theorem C10_zero_price_emits_nothing_witness :
    lineMatchesAnyRule "bos at 0".toList = true ∧
    extractPrice "bos at 0".toList = some 0 ∧
    structuresFromLine "bos at 0".toList = [] :=
  ⟨by decide, by decide,
    C10_zero_price_emits_nothing "bos at 0".toList (by decide) (by decide)⟩

/-- Helper: a line matching none of the six rule categories contributes no
structures. -/
theorem structuresFromLine_eq_nil_of_no_match (line : List Char)
    (h : lineMatchesAnyRule line = false) :
    structuresFromLine line = [] := by
  unfold lineMatchesAnyRule at h
  simp only [Bool.or_eq_false_iff] at h
  obtain ⟨⟨⟨⟨⟨h1, h2⟩, h3⟩, h4⟩, h5⟩, h6⟩ := h
  unfold structuresFromLine
  simp [h1, h2, h3, h4, h5, h6]

/-- C8: the structure-extraction pass is a total function (the embedding is
a plain recursive definition, so it terminates on every input without
raising), and on any text none of whose lines keyword-matches any of the six
rule categories it returns the empty structure set as a valid result. -/
theorem C8_no_keyword_empty_result (text : String) (tf : Timeframe)
    (h : ∀ line ∈ splitLines (text.toList.map Char.toLower),
      lineMatchesAnyRule line = false) :
    extractStructuresFromAnalysis text tf = [] := by
  unfold extractStructuresFromAnalysis
  rw [List.join_eq_nil_iff]
  intro l hl
  rw [List.mem_map] at hl
  obtain ⟨line, hline, rfl⟩ := hl
  exact structuresFromLine_eq_nil_of_no_match line (h line hline)

/-- C8 witness: a two-line text with no recognized keyword extracts to the
empty structure set. -/
theorem C8_no_keyword_empty_result_witness :
    extractStructuresFromAnalysis "hello world\nprice is 123" Timeframe.tf4h = [] :=
  C8_no_keyword_empty_result "hello world\nprice is 123" Timeframe.tf4h (by decide)

/-- Helper: under a known nonzero extracted price, every price-guarded rule
segment emits its single structure (argument order suited to rewriting). -/
theorem guardPrice_some_mk (line : List Char) (p : ℚ)
    (hp : extractPrice line = some p) (h0 : p ≠ 0)
    (mk : ℚ → MarketStructure) : guardPrice line mk = [mk p] := by
  unfold guardPrice
  rw [hp]
  simp [h0]

/-- Helper: length of the category filter over one guarded rule segment. -/
theorem length_filter_ite (c : Bool) (x : MarketStructure)
    (pred : MarketStructure → Bool) :
    ((if c = true then [x] else []).filter pred).length =
      if c && pred x then 1 else 0 := by
  cases c <;> cases hx : pred x <;> simp [hx]

/-- C6: any line containing "bos" and "bullish" with an extractable nonzero
price yields exactly one break-of-structure entry, with direction bullish,
confidence exactly 0.85, at the extracted price. -/
theorem C6_bos_bullish_single (line : List Char) (p : ℚ)
    (hbos : containsSub "bos".toList line = true)
    (hbull : containsSub "bullish".toList line = true)
    (hp : extractPrice line = some p) (h0 : p ≠ 0) :
    (structuresFromLine line).filter (fun s => s.type = StructType.bos) =
      [{ type := .bos, direction := .bullish, priceLevel := p,
         confidence := 0.85, coordinates := ⟨0, 0, 0, 0⟩ }] := by
  have hrb : ruleMatches .bos line = true := by
    unfold ruleMatches
    rw [hbos]
    rfl
  unfold structuresFromLine
  simp only [guardPrice_some_mk line p hp h0, hrb, if_true, List.filter_append]
  split_ifs <;> simp [hbull]

/-- C6 witness: the line "bos bullish at 102" has extractable price 102 and
yields exactly the single bullish bos structure with confidence 0.85. -/
theorem C6_bos_bullish_single_witness :
    containsSub "bos".toList "bos bullish at 102".toList = true ∧
    extractPrice "bos bullish at 102".toList = some 102 ∧
    (structuresFromLine "bos bullish at 102".toList).filter
        (fun s => s.type = StructType.bos) =
      [{ type := .bos, direction := .bullish, priceLevel := 102,
         confidence := 0.85, coordinates := ⟨0, 0, 0, 0⟩ }] :=
  ⟨by decide, by decide,
    C6_bos_bullish_single "bos bullish at 102".toList 102 (by decide) (by decide)
      (by decide) (by decide)⟩

/-- C9: with an extractable nonzero price on the line, each rule category
contributes exactly one structure when its keywords match and none
otherwise — so a line matching several categories contributes one structure
per matched category. -/
theorem C9_one_per_matched_category (line : List Char) (p : ℚ)
    (hp : extractPrice line = some p) (h0 : p ≠ 0) (k : StructType) :
    ((structuresFromLine line).filter (fun s => s.type = k)).length =
      if ruleMatches k line then 1 else 0 := by
  unfold structuresFromLine
  simp only [guardPrice_some_mk line p hp h0, List.filter_append,
    List.length_append, length_filter_ite]
  rcases k <;> simp

/-- C9 witness: the line "order block with liquidity at 100" matches exactly
the order_block and liquidity categories, contributes one structure for
each, and yields exactly two structures in total. -/
theorem C9_one_per_matched_category_witness :
    ((structuresFromLine "order block with liquidity at 100".toList).filter
        (fun s => s.type = StructType.order_block)).length = 1 ∧
    ((structuresFromLine "order block with liquidity at 100".toList).filter
        (fun s => s.type = StructType.liquidity)).length = 1 ∧
    (structuresFromLine "order block with liquidity at 100".toList).length = 2 := by
  refine ⟨?_, ?_, by decide⟩
  · rw [C9_one_per_matched_category "order block with liquidity at 100".toList 100
      (by decide) (by decide) .order_block]
    decide
  · rw [C9_one_per_matched_category "order block with liquidity at 100".toList 100
      (by decide) (by decide) .liquidity]
    decide

/-- C4 counterexample: the lowercased line "poi bullish at 100" contains
"bullish", so the claimed uniform rule assigns bullish; the code's poi rule
emits direction neutral for that same line. -/
theorem C4_uniform_direction_refuted :
    (extractStructuresFromAnalysis "POI bullish at 100" Timeframe.tf3m).map
        MarketStructure.direction = [Direction.neutral] ∧
    claimedUniformDirection ("POI bullish at 100".toList.map Char.toLower) =
      Direction.bullish := by
  decide

/-- C4 (amended): every structure a line emits carries the direction given by
the per-category rule `amendedDirection`: choch/bos test "bullish"/"bearish";
order_block tests "bullish" or "demand" versus "bearish" or "supply";
liquidity tests "above" versus "below"; poi and fib_50 are always neutral —
with the bullish-side test taking precedence in each case. -/
theorem C4_direction_per_category (line : List Char) (s : MarketStructure)
    (hs : s ∈ structuresFromLine line) :
    s.direction = amendedDirection s.type line := by
  unfold structuresFromLine at hs
  simp only [List.mem_append] at hs
  rcases hs with ((((hs | hs) | hs) | hs) | hs) | hs <;>
    obtain ⟨p, rfl⟩ := mem_guardPrice _ _ _ (mem_of_mem_ite hs) <;>
    simp [amendedDirection]

/-- C4 witness: the line "order block demand at 100" emits an order_block
structure whose direction (bullish, via "demand") matches the per-category
rule. -/
theorem C4_direction_per_category_witness :
    ({ type := StructType.order_block, direction := Direction.bullish,
       priceLevel := 100, confidence := 0.75,
       coordinates := ⟨0, 0, 0, 0⟩ } : MarketStructure) ∈
      structuresFromLine "order block demand at 100".toList ∧
    Direction.bullish =
      amendedDirection StructType.order_block "order block demand at 100".toList :=
  have hlist : structuresFromLine "order block demand at 100".toList =
      [{ type := StructType.order_block, direction := Direction.bullish,
         priceLevel := 100, confidence := 0.75,
         coordinates := ⟨0, 0, 0, 0⟩ }] := by rfl
  have hmem : ({ type := StructType.order_block,
                 direction := Direction.bullish,
                 priceLevel := 100, confidence := 0.75,
                 coordinates := ⟨0, 0, 0, 0⟩ } : MarketStructure) ∈
      structuresFromLine "order block demand at 100".toList := by
    rw [hlist]
    exact List.mem_singleton_self _
  ⟨hmem, C4_direction_per_category _ _ hmem⟩
